import Mathlib

/-!
Shallow embedding of the goveelife integration's capability-model and
state-synchronization engine, translated from the Python sources:

* `models.py` — the typed request/response models (`DeviceStateResponse`,
  `DeviceStateCapability`, `Capability`, `CapabilityState`,
  `CapabilityResponse`, `DeviceControlResponse`);
* `cache.py` — `GoveeStateCache` (`__setitem__` / `get_capability_value`),
  modelled as a map from device id to the stored state (the pydantic
  `model_dump` / re-parse round trip of a well-typed state is the identity,
  so the cache stores the state value itself);
* `api.py` — `GoveeApiClient.get_device_state`, `control_device` and
  `_update_device_cache`, as explicit state-passing functions over the cache
  and the daily API-call counter.  The fixture ("debug file") check and the
  network response are inputs; each Python early return is one branch;
* `utils.py` — the legacy `async_GoveeAPI_ControlDevice` helper, which has
  its own cache-reconciliation code path;
* `entities.py` — `GoveeAPIUpdateCoordinator._async_update_data`;
* `work_mode_mixin.py` / `humidifier.py` — the two work-mode table builders
  (`WorkModeMixin` and `GoveeLifeHumidifier` each carry a full copy of the
  `_process_*` / `_extract_mode_value` methods; they differ, so both are
  embedded, in namespaces named after their classes).

Runtime values that Python types as `Any` are embedded as the small closed
type `Val`; where Python raises (KeyError, pydantic ValidationError) and no
enclosing handler swallows the exception, the embedding returns `Except`.
-/

/-- Runtime capability values (`Any` in the Python models): enough shapes to
express every value the claims touch. -/
inductive Val where
  | vInt : Int → Val
  | vStr : String → Val
  | vNull : Val
  deriving DecidableEq, Repr

/-- The raw `state` dict held by each cached capability
(`DeviceStateCapability.state : dict[str, Any]` in `models.py`).  The code
reads and writes its `"value"` key (`models.py` `get_value`, `api.py`
`_update_device_cache`) and `utils.py` writes `{"value": v}`; a `"status"`
key may also be present.  A field of `none` is an absent key. -/
structure StateDict where
  value : Option Val
  status : Option String
  deriving DecidableEq, Repr

/-- `models.py DeviceStateCapability`: one capability entry of a cached
device state.  `instance` is a Lean keyword, so that field is `inst`. -/
structure DeviceStateCapability where
  type : String
  inst : String
  state : StateDict
  deriving DecidableEq, Repr

/-- `models.py DeviceStateCapability.get_value`: the `"value"` key of the
state dict (`None` when the dict is empty or the key absent). -/
def DeviceStateCapability.get_value (c : DeviceStateCapability) : Option Val :=
  c.state.value

/-- `models.py DeviceStateResponse`: a device's full capability state. -/
structure DeviceStateResponse where
  capabilities : List DeviceStateCapability
  deriving DecidableEq, Repr

/-- `models.py DeviceStateResponse.get_capability`: first capability whose
`(type, instance)` pair matches (a linear scan returning the first hit). -/
def DeviceStateResponse.get_capability (st : DeviceStateResponse)
    (ty inst : String) : Option DeviceStateCapability :=
  st.capabilities.find? (fun c => c.type == ty && c.inst == inst)

/-- `models.py DeviceStateResponse.get_capability_value`. -/
def DeviceStateResponse.get_capability_value (st : DeviceStateResponse)
    (ty inst : String) : Option Val :=
  match st.get_capability ty inst with
  | some c => c.get_value
  | none => none

/-- The per-entry state store behind `cache.py GoveeStateCache`
(`hass.data[DOMAIN][entry_id][CONF_STATE]`): device id to stored state. -/
abbrev Cache := String → Option DeviceStateResponse

def cacheEmpty : Cache := fun _ => none

/-- `cache.py GoveeStateCache.__setitem__`: store a device's state,
overwriting the previous generation. -/
def cachePut (c : Cache) (d : String) (st : DeviceStateResponse) : Cache :=
  fun x => if x = d then some st else c x

/-- `cache.py GoveeStateCache.get_capability_value`: read a device's state
and look the `(type, instance)` pair up in it; `None` when the device was
never observed. -/
def cacheGetCapabilityValue (c : Cache) (d ty inst : String) : Option Val :=
  match c d with
  | some st => st.get_capability_value ty inst
  | none => none

/-- `models.py Capability`: the capability sent in a control request. -/
structure Capability where
  type : String
  inst : String
  value : Val
  deriving DecidableEq, Repr

/-- `models.py CapabilityState`: the echoed state of a control response's
capability, carrying the vendor's status and error details. -/
structure CapabilityState where
  status : Option String
  errorCode : Option Int
  errorMsg : Option String
  value : Option Val
  deriving DecidableEq, Repr

/-- `models.py CapabilityResponse`: the capability echoed by a control
response. -/
structure CapabilityResponse where
  type : String
  inst : String
  state : Option CapabilityState
  value : Option Val
  deriving DecidableEq, Repr

/-- `models.py DeviceControlResponse`. -/
structure DeviceControlResponse where
  requestId : String
  msg : String
  code : Int
  capability : Option CapabilityResponse
  deriving DecidableEq, Repr

/-- The loop of `api.py GoveeApiClient._update_device_cache`: walk the cached
capability list and, at the first entry whose `(type, instance)` matches the
sent capability, set its state's `"value"` to the sent value (then `break`);
all other entries are untouched. -/
def setFirstMatchValue : List DeviceStateCapability → Capability →
    List DeviceStateCapability
  | [], _ => []
  | c :: rest, cap =>
    if c.type == cap.type && c.inst == cap.inst then
      { c with state := { c.state with value := some cap.value } } :: rest
    else
      c :: setFirstMatchValue rest cap

/-- `api.py GoveeApiClient._update_device_cache`: re-read the cached state,
fold the sent value into the matching entry, and store the result back.  When
the device has no cached state the method returns without writing. -/
def updateDeviceCache (c : Cache) (d : String) (cap : Capability) : Cache :=
  match c d with
  | none => c
  | some st => cachePut c d { st with capabilities := setFirstMatchValue st.capabilities cap }

/-- The synthesized reply of `api.py control_device`'s debug branch: code
200, `requestId` `"debug-dummy"`, the sent capability echoed with state
`{"status": "success"}`. -/
def debugControlResponse (cap : Capability) : DeviceControlResponse :=
  { requestId := "debug-dummy", msg := "success", code := 200,
    capability := some { type := cap.type, inst := cap.inst,
                         state := some { status := some "success", errorCode := none,
                                         errorMsg := none, value := none },
                         value := some cap.value } }

/-- `api.py GoveeApiClient.control_device` as a state-passing function.
`debugFilePresent` is the `debug_file.is_file()` check; `net` is the parsed
body of an HTTP-200 reply from `device/control` (`none` stands for the
falsy/empty reply of `_request`'s error path, which makes the method return
`None` with no cache write; a non-200 HTTP status produces a body the
response model rejects, likewise leaving the cache and giving the caller no
success).  `apiCount` is the daily call counter `_request` increments before
each network request.  Note the source guards the cache update only with
`control_resp.code == 200` — the `"failure"` status check above it merely
logs. -/
def controlDevice (debugFilePresent : Bool) (net : Option DeviceControlResponse)
    (c : Cache) (apiCount : Nat) (d : String) (cap : Capability) :
    Option DeviceControlResponse × Cache × Nat :=
  if debugFilePresent then
    (some (debugControlResponse cap), c, apiCount)
  else
    match net with
    | none => (none, c, apiCount + 1)
    | some resp =>
      if resp.code == 200 then (some resp, updateDeviceCache c d cap, apiCount + 1)
      else (some resp, c, apiCount + 1)

/-- The operator fixture file's `data.cloud_states` map: device id to the
state it holds (a device id the fixture misses raises a KeyError that
`handle_api_errors` turns into `None`). -/
abbrev Fixture := String → Option DeviceStateResponse

/-- What `api.py get_device_state` hands back, as the update coordinator sees
it dynamically: `None`, a `DeviceStateResponse` — or an integer status code,
the shape `entities.py` line 238 tests for (the legacy
`async_GoveeAPI_GetDeviceState(..., return_status_code=True)` could return
ints; the typed client cannot, which `getDeviceState_never_intCode` makes
explicit). -/
inductive StateResult where
  | noneVal : StateResult
  | state : DeviceStateResponse → StateResult
  | intCode : Int → StateResult
  deriving DecidableEq, Repr

/-- Outcome of the `device/state` POST as `_request` classifies it: an
HTTP-200 body with a well-formed `payload`; a non-200 HTTP status (the POST
branch returns `{"code": status, "msg": text}`, which has no `"payload"`
key); an HTTP-200 body whose payload the response model rejects (pydantic
raises a `ValidationError`, a `ValueError` that `handle_api_errors`
re-raises); or a transport failure/timeout (`log_errors` returns `{}`). -/
inductive StateNet where
  | ok : DeviceStateResponse → StateNet
  | httpError : Int → StateNet
  | badPayload : StateNet
  | failure : StateNet
  deriving DecidableEq, Repr

/-- `api.py GoveeApiClient.get_device_state`.  With the fixture present the
state is read from `data.cloud_states[device]` and returned before the
request (and before the cache write); otherwise `_post` increments the daily
counter and the response is handled per `StateNet`.  `.error` is an
exception escaping to the caller. -/
def getDeviceState (fixture : Option Fixture) (net : StateNet) (c : Cache)
    (apiCount : Nat) (d : String) :
    Except String StateResult × Cache × Nat :=
  match fixture with
  | some fx =>
    match fx d with
    | some st => (.ok (.state st), c, apiCount)
    | none => (.ok .noneVal, c, apiCount)
  | none =>
    match net with
    | .ok st => (.ok (.state st), cachePut c d st, apiCount + 1)
    | .httpError _ => (.ok .noneVal, c, apiCount + 1)
    | .badPayload => (.error "ValidationError", c, apiCount + 1)
    | .failure => (.ok .noneVal, c, apiCount + 1)

/-- How one `_async_update_data` run ends: raising `ConfigEntryAuthFailed`;
returning `False` from the `except` clause around the fetch; or completing
normally with the fetch's result. -/
inductive CoordOutcome where
  | authFailed : CoordOutcome
  | failedFalse : CoordOutcome
  | data : StateResult → CoordOutcome
  deriving DecidableEq, Repr

def isAuthFailed : CoordOutcome → Bool
  | .authFailed => true
  | _ => false

/-- `entities.py GoveeAPIUpdateCoordinator._async_update_data`: fetch via the
typed client (any exception becomes `failedFalse`), then — after the interval
re-derivation, which touches no state the claims mention — raise
`ConfigEntryAuthFailed` iff `result == 429 or result == 401`, a comparison
that can only hold on an integer result. -/
def coordinatorUpdateData (fixture : Option Fixture) (net : StateNet) (c : Cache)
    (apiCount : Nat) (d : String) : CoordOutcome × Cache × Nat :=
  match getDeviceState fixture net c apiCount d with
  | (.error _, c', k') => (.failedFalse, c', k')
  | (.ok r, c', k') =>
    match r with
    | .intCode n => if n == 429 || n == 401 then (.authFailed, c', k') else (.data r, c', k')
    | _ => (.data r, c', k')

/-- Outcome of `utils.py async_GoveeAPI_POSTRequest` for `device/control`:
an HTTP-200 JSON body; a non-200 status (returned as the bare integer when
`return_status_code`, else `None`); or an exception caught inside the helper
(`None`). -/
inductive UtilsNet where
  | http200 : DeviceControlResponse → UtilsNet
  | httpErr : Int → UtilsNet
  | exc : UtilsNet
  deriving DecidableEq, Repr

/-- The raw `state_capability` dict a caller hands to
`async_GoveeAPI_ControlDevice`: `{type, instance, value}` (`value` may be
absent, in which case the later `capability.pop("value")` raises). -/
structure ControlCapabilityDict where
  type : String
  inst : String
  value : Option Val
  deriving DecidableEq, Repr

/-- What `async_GoveeAPI_ControlDevice` returns: `True`, `False`, the
structured `{"error_code", "error_msg"}` dict (`none` components stand for
the `"Unknown"` defaults of absent keys), or a bare status code. -/
inductive UtilsControlResult where
  | retFalse : UtilsControlResult
  | retTrue : UtilsControlResult
  | retError : Option Int → Option String → UtilsControlResult
  | retStatus : Int → UtilsControlResult
  deriving DecidableEq, Repr

/-- `capability.get("state", {}).get("status", "")` of `utils.py`. -/
def utilsStatusOf (rc : CapabilityResponse) : String :=
  match rc.state with
  | some s => s.status.getD ""
  | none => ""

/-- The reconciliation loop of `utils.py async_GoveeAPI_ControlDevice`
(lines 302–311): find the first cached capability matching the echoed
`(type, instance)`, `remove` it and `append` the new entry; `none` when no
entry matches (the loop falls through to `return False`). -/
def utilsReplaceCap : List DeviceStateCapability → DeviceStateCapability →
    Option (List DeviceStateCapability)
  | [], _ => none
  | c :: rest, newCap =>
    if c.type == newCap.type && c.inst == newCap.inst then
      some (rest ++ [newCap])
    else
      (utilsReplaceCap rest newCap).map (c :: ·)

/-- `utils.py async_GoveeAPI_ControlDevice`.  The debug branch synthesizes an
HTTP-200 success echo and — unlike `api.py` — falls through to the common
handling.  A `"failure"` status returns the structured error before any
cache step; otherwise the echoed value is moved into a fresh
`{"state": {"value": v}}` entry that replaces the matching cached one.
Every raised KeyError/AttributeError is swallowed by the enclosing
`except` into `False`. -/
def async_GoveeAPI_ControlDevice (debugFilePresent : Bool) (net : UtilsNet)
    (c : Cache) (d : String) (cap : ControlCapabilityDict)
    (returnStatusCode : Bool) : UtilsControlResult × Cache :=
  let r : Option (Sum Int DeviceControlResponse) :=
    if debugFilePresent then
      some (.inr { requestId := "debug-dummy", msg := "success", code := 200,
                   capability := some { type := cap.type, inst := cap.inst,
                                        state := some { status := some "success",
                                                        errorCode := none, errorMsg := none,
                                                        value := none },
                                        value := cap.value } })
    else
      match net with
      | .http200 resp => some (.inr resp)
      | .httpErr n => if returnStatusCode then some (.inl n) else none
      | .exc => none
  match r with
  | none => (.retFalse, c)
  | some (.inl n) => if returnStatusCode then (.retStatus n, c) else (.retFalse, c)
  | some (.inr resp) =>
    match resp.capability with
    | none => (.retFalse, c)
    | some rc =>
      if utilsStatusOf rc == "failure" then
        (.retError (rc.state.bind (·.errorCode)) (rc.state.bind (·.errorMsg)), c)
      else
        match rc.value with
        | none => (.retFalse, c)
        | some v =>
          let newCap : DeviceStateCapability :=
            { type := rc.type, inst := rc.inst, state := { value := some v, status := none } }
          match c d with
          | none => (.retFalse, c)
          | some st =>
            match utilsReplaceCap st.capabilities newCap with
            | some caps2 => (.retTrue, cachePut c d { st with capabilities := caps2 })
            | none => (.retFalse, c)

/-- The `(type, instance)` key of a cached capability entry. -/
def capKey (c : DeviceStateCapability) : String × String := (c.type, c.inst)

/-- The §3 invariant: a device state holds at most one capability entry per
`(type, instance)` pair. -/
def atMostOnePerKey (caps : List DeviceStateCapability) : Prop :=
  (caps.map capKey).Nodup

instance (caps : List DeviceStateCapability) : Decidable (atMostOnePerKey caps) :=
  inferInstanceAs (Decidable ((caps.map capKey).Nodup))

/-- A `range` parameter dict of a mode option; `min` may be absent
(`range.get("min", 0)`). -/
structure RangeDict where
  min : Option Int
  deriving DecidableEq, Repr

/-- A child of a parent (nested) mode option: the builders read only its
`name` and `value` keys. -/
structure ChildOption where
  name : String
  value : Option Int
  deriving DecidableEq, Repr

/-- One option of a work-mode capability field, as the loosely-typed dicts of
`device_cfg` carry it.  `none` fields are absent keys; `options` present
(even empty) marks a parent option, matching the `"options" in
mode_value_option` test. -/
structure ModeOption where
  name : String
  value : Option Int
  defaultValue : Option Int
  range : Option RangeDict
  options : Option (List ChildOption)
  deriving DecidableEq, Repr

/-- A resolved preset: the `{workMode, modeValue}` pair stored in
`_attr_preset_modes_mapping_set`. -/
structure WorkModeEntry where
  workMode : Int
  modeValue : Int
  deriving DecidableEq, Repr

/-- The three mode tables the builders mutate:
`_attr_preset_modes_mapping` (step-1 workMode table),
`_attr_preset_modes_mapping_set` (preset name to resolved pair) and
`_attr_available_modes`.  Python dicts keep insertion order and overwrite in
place, which `dictInsert` mirrors. -/
structure WorkModeState where
  mapping : List (String × Int)
  mappingSet : List (String × WorkModeEntry)
  availableModes : List String
  deriving DecidableEq, Repr

/-- Python dict assignment `d[k] = v`: replace in place, else append. -/
def dictInsert {α : Type} : List (String × α) → String → α → List (String × α)
  | [], k, v => [(k, v)]
  | (k', v') :: rest, k, v =>
    if k' == k then (k, v) :: rest else (k', v') :: dictInsert rest k v

/-- A field of a work-mode capability's `parameters.fields` list. -/
structure WMField where
  fieldName : String
  options : List ModeOption
  deriving DecidableEq, Repr

namespace WorkModeMixin

/-- `work_mode_mixin.py WorkModeMixin._extract_mode_value`: explicit value,
else default value, else range minimum (0 when the range dict has no
`min`), else 0 with a warning. -/
def extract_mode_value (o : ModeOption) : Int :=
  match o.value with
  | some v => v
  | none =>
    match o.defaultValue with
    | some dv => dv
    | none =>
      match o.range with
      | some r => r.min.getD 0
      | none => 0

/-- `WorkModeMixin._process_standalone_mode`: a name absent from the step-1
table is skipped with a warning; otherwise the option becomes one preset. -/
def process_standalone_mode (st : WorkModeState) (o : ModeOption) : WorkModeState :=
  match st.mapping.lookup o.name with
  | none => st
  | some wm =>
    { st with
      availableModes := st.availableModes ++ [o.name],
      mappingSet := dictInsert st.mappingSet o.name ⟨wm, extract_mode_value o⟩ }

/-- `WorkModeMixin._process_parent_mode_with_children`: a parent name absent
from the step-1 table is skipped with a warning; otherwise each child with a
name and a value becomes one preset under the parent's resolved workMode. -/
def process_parent_mode_with_children (st : WorkModeState) (o : ModeOption) :
    WorkModeState :=
  match st.mapping.lookup o.name with
  | none => st
  | some wm =>
    (o.options.getD []).foldl
      (fun s cOpt =>
        match cOpt.value with
        | some cv =>
          if cOpt.name ≠ "" then
            { s with
              availableModes := s.availableModes ++ [cOpt.name],
              mappingSet := dictInsert s.mappingSet cOpt.name ⟨wm, cv⟩ }
          else s
        | none => s)
      st

/-- `WorkModeMixin._process_mode_value_field`: options carrying an `options`
key are parents; the rest are standalone, with the sentinel `"Custom"`
excluded. -/
def process_mode_value_field (st : WorkModeState) (opts : List ModeOption) :
    WorkModeState :=
  opts.foldl
    (fun s o =>
      match o.options with
      | some _ => process_parent_mode_with_children s o
      | none => if o.name ≠ "Custom" then process_standalone_mode s o else s)
    st

/-- `WorkModeMixin._process_work_mode_field` (step 1): each option with a
name and a value contributes to the workMode table. -/
def process_work_mode_field (st : WorkModeState) (opts : List ModeOption) :
    WorkModeState :=
  opts.foldl
    (fun s o =>
      match o.value with
      | some v => if o.name ≠ "" then { s with mapping := dictInsert s.mapping o.name v } else s
      | none => s)
    st

/-- `WorkModeMixin.process_work_mode_capability` after
`init_work_mode_mappings`: dispatch each field of the descriptor on its
`fieldName`. -/
def process_work_mode_capability (fields : List WMField) : WorkModeState :=
  fields.foldl
    (fun s f =>
      if f.fieldName = "workMode" then process_work_mode_field s f.options
      else if f.fieldName = "modeValue" then process_mode_value_field s f.options
      else s)
    ⟨[], [], []⟩

end WorkModeMixin

namespace GoveeLifeHumidifier

/-- `humidifier.py GoveeLifeHumidifier._extract_mode_value`: same elif chain
as the mixin's. -/
def extract_mode_value (o : ModeOption) : Int :=
  match o.value with
  | some v => v
  | none =>
    match o.defaultValue with
    | some dv => dv
    | none =>
      match o.range with
      | some r => r.min.getD 0
      | none => 0

/-- `GoveeLifeHumidifier._process_parent_mode_with_children`: no membership
guard — `self._attr_preset_modes_mapping[parent_mode_name]` raises a KeyError
when the parent is absent from the step-1 table (the child's name has already
been appended to the available list when the lookup runs; the exception
propagates out of `_process_capability`). -/
def process_parent_mode_with_children (st : WorkModeState) (o : ModeOption) :
    Except String WorkModeState :=
  (o.options.getD []).foldlM
    (fun s cOpt =>
      let s1 := { s with availableModes := s.availableModes ++ [cOpt.name] }
      match s.mapping.lookup o.name with
      | none => .error ("KeyError: " ++ o.name)
      | some wm =>
        match cOpt.value with
        | none => .error "KeyError: value"
        | some cv => .ok { s1 with mappingSet := dictInsert s1.mappingSet cOpt.name ⟨wm, cv⟩ })
    st

/-- `GoveeLifeHumidifier._process_standalone_mode`: likewise unguarded —
`self._attr_preset_modes_mapping[mode_name]` raises when the name is absent
from the step-1 table. -/
def process_standalone_mode (st : WorkModeState) (o : ModeOption) :
    Except String WorkModeState :=
  let s1 := { st with availableModes := st.availableModes ++ [o.name] }
  match st.mapping.lookup o.name with
  | none => .error ("KeyError: " ++ o.name)
  | some wm =>
    .ok { s1 with mappingSet := dictInsert s1.mappingSet o.name ⟨wm, extract_mode_value o⟩ }

/-- `GoveeLifeHumidifier._process_mode_value_field`: same dispatch as the
mixin's, but an exception from either handler aborts the loop. -/
def process_mode_value_field (st : WorkModeState) (opts : List ModeOption) :
    Except String WorkModeState :=
  opts.foldlM
    (fun s o =>
      match o.options with
      | some _ => process_parent_mode_with_children s o
      | none => if o.name ≠ "Custom" then process_standalone_mode s o else .ok s)
    st

end GoveeLifeHumidifier

/-! ## Helper lemmas -/

/-- `_update_device_cache`'s loop rewrites one entry's state value but never
changes any entry's `(type, instance)` key. -/
theorem setFirstMatchValue_map_capKey (caps : List DeviceStateCapability)
    (cap : Capability) :
    (setFirstMatchValue caps cap).map capKey = caps.map capKey := by
  induction caps with
  | nil => rfl
  | cons c rest ih =>
    by_cases hp : (c.type == cap.type && c.inst == cap.inst) = true
    · simp [setFirstMatchValue, hp, capKey]
    · simp [setFirstMatchValue, hp, capKey, ih]

/-- After `_update_device_cache`'s loop, the first entry matching the sent
capability's key carries the sent value, provided some entry matched. -/
theorem get_after_setFirstMatchValue (caps : List DeviceStateCapability)
    (cap : Capability)
    (h : (caps.find? (fun c => c.type == cap.type && c.inst == cap.inst)).isSome = true) :
    (DeviceStateResponse.mk (setFirstMatchValue caps cap)).get_capability_value
      cap.type cap.inst = some cap.value := by
  induction caps with
  | nil => simp [List.find?] at h
  | cons c rest ih =>
    by_cases hp : (c.type == cap.type && c.inst == cap.inst) = true
    · simp [setFirstMatchValue, hp, DeviceStateResponse.get_capability_value,
            DeviceStateResponse.get_capability, List.find?, DeviceStateCapability.get_value]
    · have h' : (rest.find? (fun c => c.type == cap.type && c.inst == cap.inst)).isSome = true := by
        simpa [List.find?, hp] using h
      have := ih h'
      simpa [setFirstMatchValue, hp, DeviceStateResponse.get_capability_value,
             DeviceStateResponse.get_capability, List.find?] using this

/-- A first-match linear scan on a list with unique `(type, instance)` keys
returns the member that carries the searched key. -/
theorem find_first_of_mem_nodup (caps : List DeviceStateCapability)
    (ty inst : String) (cap : DeviceStateCapability)
    (hmem : cap ∈ caps) (hty : cap.type = ty) (hinst : cap.inst = inst)
    (hnd : (caps.map capKey).Nodup) :
    caps.find? (fun c => c.type == ty && c.inst == inst) = some cap := by
  induction caps with
  | nil => cases hmem
  | cons a rest ih =>
    rcases List.mem_cons.mp hmem with h | h
    · subst h
      simp [List.find?, hty, hinst]
    · have hnd' := (List.nodup_cons.mp hnd)
      have hpa : (a.type == ty && a.inst == inst) = false := by
        by_cases hq : (a.type == ty && a.inst == inst) = true
        · exfalso
          simp only [Bool.and_eq_true, beq_iff_eq] at hq
          have hkey : capKey a = capKey cap := by
            simp [capKey, hq.1, hq.2, hty, hinst]
          exact hnd'.1 (hkey ▸ List.mem_map_of_mem capKey h)
        · exact Bool.eq_false_iff.mpr hq
      simp only [List.find?, hpa]
      exact ih h hnd'.2

/-- The `remove`-then-`append` reconciliation of `utils.py` permutes the
multiset of `(type, instance)` keys (it removes one entry and appends one
with the same key). -/
theorem utilsReplaceCap_perm (caps : List DeviceStateCapability)
    (newCap : DeviceStateCapability) (res : List DeviceStateCapability)
    (h : utilsReplaceCap caps newCap = some res) :
    (res.map capKey).Perm (caps.map capKey) := by
  induction caps generalizing res with
  | nil => simp [utilsReplaceCap] at h
  | cons a rest ih =>
    by_cases hp : (a.type == newCap.type && a.inst == newCap.inst) = true
    · simp only [utilsReplaceCap, hp, if_true, Option.some.injEq] at h
      subst h
      have hpq := hp
      simp only [Bool.and_eq_true, beq_iff_eq] at hpq
      have hkey : capKey newCap = capKey a := by
        simp [capKey, hpq.1, hpq.2]
      simp only [List.map_append, List.map_cons, List.map_nil, hkey]
      exact List.perm_append_singleton _ _
    · simp only [utilsReplaceCap, hp, if_false, Bool.false_eq_true] at h
      cases hrec : utilsReplaceCap rest newCap with
      | none => rw [hrec] at h; exact absurd h (by simp)
      | some r' =>
        rw [hrec] at h
        simp only [Option.map_some', Option.some.injEq] at h
        subst h
        simpa using List.Perm.cons (capKey a) (ih r' hrec)

/-! ## Claim C1 — vendor-reported command failure -/

def exC1state : DeviceStateResponse :=
  ⟨[⟨"devices.capabilities.on_off", "powerSwitch", ⟨some (.vInt 0), none⟩⟩]⟩

def exC1cache : Cache := cachePut cacheEmpty "D1" exC1state

def exC1sent : Capability := ⟨"devices.capabilities.on_off", "powerSwitch", .vInt 1⟩

def exC1failState : CapabilityState := ⟨some "failure", some 123, some "busy", none⟩

/-- The HTTP-200 body of a control reply whose echoed capability state is
`{"status": "failure", "errorCode": 123, "errorMsg": "busy"}`. -/
def exC1resp : DeviceControlResponse :=
  ⟨"r1", "failure", 200, some ⟨"devices.capabilities.on_off", "powerSwitch",
    some exC1failState, none⟩⟩

/-- The same reply as the raw dict `utils.py` sees (the echo also carries the
sent value, which the utils path would move into the cache on success). -/
def exC1utilsResp : DeviceControlResponse :=
  ⟨"r1", "failure", 200, some ⟨"devices.capabilities.on_off", "powerSwitch",
    some exC1failState, some (.vInt 1)⟩⟩

def exC1utilsSent : ControlCapabilityDict :=
  ⟨"devices.capabilities.on_off", "powerSwitch", some (.vInt 1)⟩

/-- Claim C1: a control call answered with HTTP code 200 but echoed
capability status `"failure"` should leave the State Cache unchanged and
give the caller the structured `{errorCode, errorMsg}` error.  The code does
NOT satisfy this in `api.py`: `GoveeApiClient.control_device` guards the
cache update only with `code == 200`, so the sent value `1` is merged over
the cached `0` even though the vendor reported failure (the method's own
comment says the update is "on success").  The legacy
`utils.py async_GoveeAPI_ControlDevice` behaves exactly as claimed: it
returns the structured error before the cache step, cache untouched. -/
theorem C1_failure_status_still_merges_cache :
    (controlDevice false (some exC1resp) exC1cache 0 "D1" exC1sent).1 = some exC1resp
    ∧ cacheGetCapabilityValue exC1cache "D1" "devices.capabilities.on_off" "powerSwitch"
        = some (.vInt 0)
    ∧ cacheGetCapabilityValue
        (controlDevice false (some exC1resp) exC1cache 0 "D1" exC1sent).2.1
        "D1" "devices.capabilities.on_off" "powerSwitch" = some (.vInt 1)
    ∧ (async_GoveeAPI_ControlDevice false (.http200 exC1utilsResp) exC1cache "D1"
        exC1utilsSent false).1 = .retError (some 123) (some "busy")
    ∧ (async_GoveeAPI_ControlDevice false (.http200 exC1utilsResp) exC1cache "D1"
        exC1utilsSent false).2 = exC1cache := by
  refine ⟨by decide, by decide, by decide, by decide, rfl⟩

/-! ## Claim C2 — 401/429 and the coordinator's fatal path -/

/-- Claim C2: the update coordinator should raise `ConfigEntryAuthFailed`
when the transport reports 401/429.  It cannot: `entities.py` line 238
compares `get_device_state`'s result with the integers 429/401, but the
typed client returns `None` or a `DeviceStateResponse` — on a non-200 HTTP
status the POST body `{"code": status, "msg": ...}` has no `"payload"` key,
so `get_device_state` returns `None`.  At HTTP 429 and 401 the run completes
on the transient path with result `None`, and no input whatsoever reaches the
`authFailed` outcome.  (The second half of the claim — no other failure
raises the auth error either — does hold.) -/
theorem C2_auth_status_never_raises :
    (coordinatorUpdateData none (.httpError 429) cacheEmpty 0 "D2").1 = .data .noneVal
    ∧ (coordinatorUpdateData none (.httpError 401) cacheEmpty 0 "D2").1 = .data .noneVal
    ∧ ∀ (fixture : Option Fixture) (net : StateNet) (c : Cache) (k : Nat) (d : String),
        isAuthFailed (coordinatorUpdateData fixture net c k d).1 = false := by
  refine ⟨rfl, rfl, ?_⟩
  intro fixture net c k d
  cases fixture with
  | none => cases net <;> rfl
  | some fx =>
    cases hfd : fx d with
    | none => simp [coordinatorUpdateData, getDeviceState, hfd, isAuthFailed]
    | some st => simp [coordinatorUpdateData, getDeviceState, hfd, isAuthFailed]

/-! ## Claim C3 — successful control folds the sent value into the cache -/

/-- Claim C3: when the cache holds a device state with an entry matching the
sent `(type, instance)`, a successful `control_device` replaces that entry's
value in place — no re-fetch appears anywhere in the data flow, the new cache
is computed from the old one — so an immediate `get_capability_value` returns
the sent value. -/
theorem C3_success_control_updates_cache_in_place
    (resp : DeviceControlResponse) (c : Cache) (k : Nat) (d : String)
    (cap : Capability) (st : DeviceStateResponse)
    (hcode : resp.code = 200) (hcache : c d = some st)
    (hmatch : (st.get_capability cap.type cap.inst).isSome = true) :
    cacheGetCapabilityValue (controlDevice false (some resp) c k d cap).2.1
      d cap.type cap.inst = some cap.value := by
  have hb : (resp.code == 200) = true := by simp [hcode]
  have hfind : (st.capabilities.find?
      (fun cc => cc.type == cap.type && cc.inst == cap.inst)).isSome = true := hmatch
  simp only [controlDevice, hb, Bool.false_eq_true, if_false, if_true,
    updateDeviceCache, hcache]
  simp only [cacheGetCapabilityValue, cachePut, if_pos rfl]
  exact get_after_setFirstMatchValue st.capabilities cap hfind

def exC3state : DeviceStateResponse :=
  ⟨[⟨"devices.capabilities.on_off", "powerSwitch", ⟨some (.vInt 0), none⟩⟩]⟩

def exC3cache : Cache := cachePut cacheEmpty "D3" exC3state

def exC3cap : Capability := ⟨"devices.capabilities.on_off", "powerSwitch", .vInt 1⟩

def exC3resp : DeviceControlResponse := ⟨"r3", "success", 200, none⟩

/-- Witness for C3 at a concrete cache, device and command. -/
theorem C3_success_control_updates_cache_in_place_witness :
    cacheGetCapabilityValue
      (controlDevice false (some exC3resp) exC3cache 0 "D3" exC3cap).2.1
      "D3" exC3cap.type exC3cap.inst = some exC3cap.value :=
  C3_success_control_updates_cache_in_place exC3resp exC3cache 0 "D3" exC3cap
    exC3state rfl (by decide) (by decide)

/-! ## Claim C4 — standalone mode-value extraction priority -/

/-- Claim C4: `_extract_mode_value` resolves a standalone option's value by,
in order: the explicit discrete `value`; else the declared `defaultValue`;
else the declared range's `min`; else `0` (the branch that logs a warning).
In particular, with neither value nor default the result is the range
minimum, and `0` when no range exists either.  The humidifier's own copy of
the method computes the same function. -/
theorem C4_extract_mode_value_priority (o : ModeOption) :
    (∀ v : Int, o.value = some v → WorkModeMixin.extract_mode_value o = v)
    ∧ (∀ dv : Int, o.value = none → o.defaultValue = some dv →
        WorkModeMixin.extract_mode_value o = dv)
    ∧ (∀ m : Int, o.value = none → o.defaultValue = none → o.range = some ⟨some m⟩ →
        WorkModeMixin.extract_mode_value o = m)
    ∧ (o.value = none → o.defaultValue = none → o.range = none →
        WorkModeMixin.extract_mode_value o = 0)
    ∧ GoveeLifeHumidifier.extract_mode_value o = WorkModeMixin.extract_mode_value o := by
  refine ⟨?_, ?_, ?_, ?_, rfl⟩
  · intro v hv; simp [WorkModeMixin.extract_mode_value, hv]
  · intro dv hv hd; simp [WorkModeMixin.extract_mode_value, hv, hd]
  · intro m hv hd hr; simp [WorkModeMixin.extract_mode_value, hv, hd, hr, Option.getD]
  · intro hv hd hr; simp [WorkModeMixin.extract_mode_value, hv, hd, hr]

/-- Witness for C4: an option with only a range takes the range minimum. -/
theorem C4_extract_mode_value_priority_witness :
    WorkModeMixin.extract_mode_value ⟨"Auto", none, none, some ⟨some 30⟩, none⟩ = 30 :=
  (C4_extract_mode_value_priority ⟨"Auto", none, none, some ⟨some 30⟩, none⟩).2.2.1
    30 rfl rfl rfl

/-! ## Claim C5 — preset count for standalone-only descriptors -/

/-- Step-2 processing of one standalone option never touches the step-1
workMode table. -/
theorem process_standalone_mode_mapping (st : WorkModeState) (o : ModeOption) :
    (WorkModeMixin.process_standalone_mode st o).mapping = st.mapping := by
  unfold WorkModeMixin.process_standalone_mode
  cases st.mapping.lookup o.name <;> rfl

/-- One `foldl` step of `_process_mode_value_field`, spelt out. -/
theorem process_mode_value_field_cons (st : WorkModeState) (o : ModeOption)
    (t : List ModeOption) :
    WorkModeMixin.process_mode_value_field st (o :: t) =
      WorkModeMixin.process_mode_value_field
        (match o.options with
         | some _ => WorkModeMixin.process_parent_mode_with_children st o
         | none => if o.name ≠ "Custom" then WorkModeMixin.process_standalone_mode st o else st)
        t := rfl

def exC5opts : List ModeOption := [⟨"Boost", some 1, none, none, none⟩]

def exC5fields : List WMField := [⟨"workMode", []⟩, ⟨"modeValue", exC5opts⟩]

/-- Claim C5 is false as stated: a descriptor whose `modeValue` field holds
one standalone non-`"Custom"` option (`"Boost"`) that the `workMode` field's
table does not resolve produces zero presets, not one —
`_process_standalone_mode` skips (with a warning) every option whose name is
absent from the step-1 table. -/
theorem C5_standalone_counterexample :
    ((WorkModeMixin.process_work_mode_capability exC5fields).availableModes.length
      == (exC5opts.filter (fun o => o.name != "Custom")).length) = false := by
  decide

/-- Claim C5 as amended: for a descriptor whose `modeValue` options are all
standalone, the number of produced presets equals the number of options
whose name is not `"Custom"` AND resolves in the step-1 workMode table. -/
theorem C5_standalone_preset_count (st : WorkModeState) (opts : List ModeOption)
    (h : ∀ o ∈ opts, o.options = none) :
    (WorkModeMixin.process_mode_value_field st opts).availableModes.length =
      st.availableModes.length +
        (opts.filter
          (fun o => o.name != "Custom" && (st.mapping.lookup o.name).isSome)).length := by
  induction opts generalizing st with
  | nil => simp [WorkModeMixin.process_mode_value_field]
  | cons o t ih =>
    have ho : o.options = none := h o (List.mem_cons_self o t)
    have ht : ∀ x ∈ t, x.options = none := fun x hx => h x (List.mem_cons_of_mem o hx)
    rw [process_mode_value_field_cons]
    simp only [ho]
    by_cases hc : o.name = "Custom"
    · simp only [hc, ne_eq, not_true_eq_false, if_false, List.filter_cons]
      simp only [bne_self_eq_false, Bool.false_and, Bool.false_eq_true, if_false]
      exact ih st ht
    · simp only [ne_eq, hc, not_false_eq_true, if_true]
      cases hl : st.mapping.lookup o.name with
      | none =>
        have hstep : WorkModeMixin.process_standalone_mode st o = st := by
          unfold WorkModeMixin.process_standalone_mode
          rw [hl]
        rw [hstep]
        rw [ih st ht]
        congr 1
        simp [List.filter_cons, hl]
      | some wm =>
        have hstep : WorkModeMixin.process_standalone_mode st o =
            { st with
              availableModes := st.availableModes ++ [o.name],
              mappingSet := dictInsert st.mappingSet o.name
                ⟨wm, WorkModeMixin.extract_mode_value o⟩ } := by
          unfold WorkModeMixin.process_standalone_mode
          rw [hl]
        rw [hstep, ih _ ht]
        have hpred : (o.name != "Custom" && (st.mapping.lookup o.name).isSome) = true := by
          simp [hl, bne_iff_ne, hc]
        simp only [List.filter_cons, hpred, if_true, List.length_cons,
          List.length_append, List.length_singleton, List.length_nil]
        omega

def exC5okSt : WorkModeState := ⟨[("Low", 1), ("High", 2)], [], []⟩

def exC5okOpts : List ModeOption :=
  [⟨"Low", some 10, none, none, none⟩,
   ⟨"Custom", some 3, none, none, none⟩,
   ⟨"Missing", some 4, none, none, none⟩,
   ⟨"High", none, some 20, none, none⟩]

/-- Witness for the amended C5 at a concrete table and option list
(presets: `Low` and `High`; `Custom` is the sentinel, `Missing` does not
resolve). -/
theorem C5_standalone_preset_count_witness :
    (WorkModeMixin.process_mode_value_field exC5okSt exC5okOpts).availableModes.length =
      exC5okSt.availableModes.length +
        (exC5okOpts.filter
          (fun o => o.name != "Custom" && (exC5okSt.mapping.lookup o.name).isSome)).length :=
  C5_standalone_preset_count exC5okSt exC5okOpts (by decide)

/-! ## Claim C6 — unresolvable parent name: skip vs KeyError -/

def exC6st : WorkModeState := ⟨[("Normal", 2)], [], []⟩

/-- A parent option `"Gear"` absent from the step-1 table, followed by a
standalone option `"Normal"` that resolves. -/
def exC6opts : List ModeOption :=
  [⟨"Gear", none, none, none, some [⟨"gear1", some 5⟩]⟩,
   ⟨"Normal", some 7, none, none, none⟩]

/-- Claim C6: an option whose parent name is absent from the step-1 table
should be skipped with a warning, the rest still processed.  The
`work_mode_mixin.py` builder does exactly that — here it drops `"Gear"` and
still turns `"Normal"` into a preset.  The humidifier's own copy of
`_process_parent_mode_with_children` has no membership guard: its subscript
`self._attr_preset_modes_mapping[parent_mode_name]` raises a KeyError, which
aborts `_process_capability` for the whole device, so `"Normal"` is never
processed. -/
theorem C6_missing_parent_skip_vs_keyerror :
    WorkModeMixin.process_mode_value_field exC6st exC6opts =
      ⟨[("Normal", 2)], [("Normal", ⟨2, 7⟩)], ["Normal"]⟩
    ∧ GoveeLifeHumidifier.process_mode_value_field exC6st exC6opts =
        .error "KeyError: Gear" := by
  exact ⟨by decide, rfl⟩

/-! ## Claim C7 — put / get_capability_value round trip -/

/-- Claim C7: after `put(deviceId, state)`, `get_capability_value` on that
device returns exactly what a lookup in `state` yields: the stored value of
the (unique) matching capability entry when the `(type, instance)` pair is
present in the state's capability list, and `None` when no entry carries the
pair. -/
theorem C7_put_then_get (c : Cache) (d : String) (st : DeviceStateResponse)
    (ty inst : String) :
    cacheGetCapabilityValue (cachePut c d st) d ty inst = st.get_capability_value ty inst
    ∧ ((∀ cap ∈ st.capabilities, ¬(cap.type = ty ∧ cap.inst = inst)) →
        cacheGetCapabilityValue (cachePut c d st) d ty inst = none)
    ∧ (∀ cap ∈ st.capabilities, cap.type = ty → cap.inst = inst →
        atMostOnePerKey st.capabilities →
        cacheGetCapabilityValue (cachePut c d st) d ty inst = cap.get_value) := by
  have hget : cacheGetCapabilityValue (cachePut c d st) d ty inst
      = st.get_capability_value ty inst := by
    simp [cacheGetCapabilityValue, cachePut]
  refine ⟨hget, ?_, ?_⟩
  · intro habs
    rw [hget]
    have hnone : st.capabilities.find? (fun cc => cc.type == ty && cc.inst == inst) = none := by
      rw [List.find?_eq_none]
      intro x hx
      have hx' := habs x hx
      simp only [Bool.and_eq_true, beq_iff_eq, not_and]
      intro h1 h2
      exact hx' ⟨h1, h2⟩
    simp [DeviceStateResponse.get_capability_value, DeviceStateResponse.get_capability, hnone]
  · intro cap hmem hty hinst hnd
    rw [hget]
    have hfind := find_first_of_mem_nodup st.capabilities ty inst cap hmem hty hinst hnd
    simp [DeviceStateResponse.get_capability_value, DeviceStateResponse.get_capability, hfind]

def exC7st : DeviceStateResponse :=
  ⟨[⟨"devices.capabilities.range", "humidity", ⟨some (.vInt 45), none⟩⟩]⟩

/-- Witness for C7: present pair returns the stored value, absent pair
returns `None`. -/
theorem C7_put_then_get_witness :
    cacheGetCapabilityValue (cachePut cacheEmpty "D7" exC7st) "D7"
      "devices.capabilities.range" "humidity" = some (.vInt 45)
    ∧ cacheGetCapabilityValue (cachePut cacheEmpty "D7" exC7st) "D7"
      "devices.capabilities.range" "brightness" = none := by
  constructor
  · have := (C7_put_then_get cacheEmpty "D7" exC7st
      "devices.capabilities.range" "humidity").2.2
      ⟨"devices.capabilities.range", "humidity", ⟨some (.vInt 45), none⟩⟩
      (by decide) rfl rfl (by decide)
    simpa [DeviceStateCapability.get_value] using this
  · exact (C7_put_then_get cacheEmpty "D7" exC7st
      "devices.capabilities.range" "brightness").2.1 (by decide)

/-! ## Claim C8 — at most one capability entry per (type, instance) -/

/-- Claim C8: both cache writers preserve the §3 uniqueness invariant.
`api.py`'s reconciliation rewrites one entry's value without changing any
key, `utils.py`'s removes the matching entry and appends one with the same
key, and a full-state `put` replaces the previous generation outright. -/
theorem C8_at_most_one_preserved
    (caps : List DeviceStateCapability) (cap : Capability)
    (newCap : DeviceStateCapability) (res : List DeviceStateCapability)
    (c : Cache) (d : String) (st : DeviceStateResponse) :
    (atMostOnePerKey caps → atMostOnePerKey (setFirstMatchValue caps cap))
    ∧ (atMostOnePerKey caps → utilsReplaceCap caps newCap = some res →
        atMostOnePerKey res)
    ∧ cachePut c d st d = some st := by
  refine ⟨?_, ?_, ?_⟩
  · intro h
    unfold atMostOnePerKey at *
    rw [setFirstMatchValue_map_capKey]
    exact h
  · intro h hrep
    unfold atMostOnePerKey at *
    exact (utilsReplaceCap_perm caps newCap res hrep).nodup_iff.mpr h
  · simp [cachePut]

def exC8caps : List DeviceStateCapability :=
  [⟨"devices.capabilities.on_off", "powerSwitch", ⟨some (.vInt 0), none⟩⟩,
   ⟨"devices.capabilities.range", "humidity", ⟨some (.vInt 45), none⟩⟩]

def exC8cap : Capability := ⟨"devices.capabilities.on_off", "powerSwitch", .vInt 1⟩

def exC8new : DeviceStateCapability :=
  ⟨"devices.capabilities.range", "humidity", ⟨some (.vInt 50), none⟩⟩

def exC8res : List DeviceStateCapability :=
  [⟨"devices.capabilities.on_off", "powerSwitch", ⟨some (.vInt 0), none⟩⟩, exC8new]

def exC8state : DeviceStateResponse := ⟨exC8caps⟩

/-- Witness for C8 at concrete capability lists. -/
theorem C8_at_most_one_preserved_witness :
    atMostOnePerKey (setFirstMatchValue exC8caps exC8cap)
    ∧ atMostOnePerKey exC8res
    ∧ cachePut cacheEmpty "D8" exC8state "D8" = some exC8state :=
  ⟨(C8_at_most_one_preserved exC8caps exC8cap exC8new exC8res cacheEmpty "D8"
      exC8state).1 (by decide),
   (C8_at_most_one_preserved exC8caps exC8cap exC8new exC8res cacheEmpty "D8"
      exC8state).2.1 (by decide) (by decide),
   (C8_at_most_one_preserved exC8caps exC8cap exC8new exC8res cacheEmpty "D8"
      exC8state).2.2⟩

/-! ## Claim C9 — fixture file substitutes for the network -/

/-- Claim C9: with the fixture file present, `get_device_state` answers from
`data.cloud_states[deviceId]` leaving both the cache and the daily call
counter untouched (the counter lives in `_request`, which the fixture branch
returns before reaching), and `control_device` answers with the synthesized
code-200/status-`"success"` echo of the sent capability, likewise touching
neither counter nor network — both conclusions hold for every value of the
network input. -/
theorem C9_fixture_bypass (fx : Fixture) (net : StateNet)
    (cnet : Option DeviceControlResponse) (c : Cache) (k : Nat) (d : String)
    (st : DeviceStateResponse) (cap : Capability)
    (h : fx d = some st) :
    getDeviceState (some fx) net c k d = (.ok (.state st), c, k)
    ∧ controlDevice true cnet c k d cap = (some (debugControlResponse cap), c, k) := by
  constructor
  · simp [getDeviceState, h]
  · rfl

def exC9state : DeviceStateResponse :=
  ⟨[⟨"devices.capabilities.on_off", "powerSwitch", ⟨some (.vInt 1), none⟩⟩]⟩

def exC9fx : Fixture := fun d => if d = "D9" then some exC9state else none

def exC9cap : Capability := ⟨"devices.capabilities.on_off", "powerSwitch", .vInt 0⟩

/-- Witness for C9 at a concrete fixture, with a failing network that is
never consulted. -/
theorem C9_fixture_bypass_witness :
    getDeviceState (some exC9fx) .failure cacheEmpty 7 "D9"
      = (.ok (.state exC9state), cacheEmpty, 7)
    ∧ controlDevice true none cacheEmpty 7 "D9" exC9cap
      = (some (debugControlResponse exC9cap), cacheEmpty, 7) :=
  C9_fixture_bypass exC9fx .failure none cacheEmpty 7 "D9" exC9state exC9cap
    (by decide)

/-! ## Claim C10 — fixture path never writes the cache -/

/-- Claim C10: with the fixture present, neither operation modifies the
State Cache — `get_device_state` returns the fixture state before the
cache-write step (only the network branch stores the fetched state) and
`control_device` returns its synthesized success before the reconciliation
step — so for every device the cache after the call is the cache before. -/
theorem C10_fixture_cache_frame (fx : Fixture) (net : StateNet)
    (cnet : Option DeviceControlResponse) (c : Cache) (k : Nat) (d : String)
    (cap : Capability) :
    (getDeviceState (some fx) net c k d).2.1 = c
    ∧ (controlDevice true cnet c k d cap).2.1 = c := by
  constructor
  · cases hfd : fx d <;> simp [getDeviceState, hfd]
  · rfl
